import Mathlib

/-!
Shallow embedding of the attendance service in `src/main.py` (FastAPI +
SQLAlchemy). The persistence store is modelled as two in-memory tables in
insertion order with the next auto-assigned primary key for each; each route
handler becomes a pure function from its request data and a store state to a
result (and, for writes, a new store state). Python exceptions are modelled
with `Except`: a route with no `try/except` that raises propagates an
`Except.error`, while a route whose broad `except Exception` handler succeeds
returns an error-text envelope as a normal value.
-/

/-- Calendar date (Python `datetime.date`): year, month, day. -/
structure PyDate where
  year : Nat
  month : Nat
  day : Nat
  deriving DecidableEq, Repr

/-- A loosely-typed Python value, as found in an untyped JSON `dict` payload. -/
inductive PyVal where
  | int (i : Int)
  | str (s : String)
  | bool (b : Bool)
  | date (d : PyDate)
  | pyNone
  deriving DecidableEq, Repr

/-- An untyped Python `dict` payload: field name to value. This is the type of
`new_attendance_data : dict` received by `POST /attendance`. -/
abbrev PyDict := List (String × PyVal)

/-- The Python exceptions the handlers in `src/main.py` can raise. -/
inductive PyExn where
  | nameError (n : String)
  | attributeError (ty attr : String)
  | httpException (status_code : Nat) (detail : String)
  | typeError (msg : String)
  deriving DecidableEq, Repr

/-- `str(e)` for the exceptions above. Starlette renders `HTTPException` as
`"status_code: detail"`; CPython additionally quotes the identifier in
`NameError` / `AttributeError` messages — the quote characters are elided
here, they play no role in any claim. -/
def pyExnStr : PyExn → String
  | PyExn.nameError n => "name " ++ n ++ " is not defined"
  | PyExn.attributeError ty attr => ty ++ " object has no attribute " ++ attr
  | PyExn.httpException c d => toString c ++ ": " ++ d
  | PyExn.typeError m => m

/-- Row of the `students` table (`StudentORM`, src/main.py 23-28). -/
structure StudentORM where
  id : Int
  name : String
  class_name : String
  deriving DecidableEq, Repr

/-- Row of the `attendance` table (`AttendanceORM`, src/main.py 30-38). -/
structure AttendanceORM where
  id : Int
  student_id : Int
  date : PyDate
  status : String
  is_deleted : Bool
  deriving DecidableEq, Repr

/-- The persistence store: the two tables in insertion order, together with
the next auto-assigned primary key of each. -/
structure DB where
  students : List StudentORM
  attendance : List AttendanceORM
  next_student_id : Int
  next_attendance_id : Int
  deriving DecidableEq, Repr

/-- Request body of `POST /students` (`PostStudent`, src/main.py 43-45). -/
structure PostStudent where
  name : String
  class_name : String
  deriving DecidableEq, Repr

/-- Response envelope of the write routes (`ResponseModel`, src/main.py 53-57).
`data` carries a free-text outcome, success or error alike. -/
structure ResponseModel where
  request_method : String
  param : PyDict
  record : String
  data : String
  deriving DecidableEq, Repr

/-- `student.dict()` for a typed `PostStudent` body (this one exists and
succeeds, unlike attribute access on a plain `dict`). -/
def postStudentDict (s : PostStudent) : PyDict :=
  [("name", PyVal.str s.name), ("class_name", PyVal.str s.class_name)]

/-- The `try:` block of `POST /students` (src/main.py 67-81): look up an
existing student by exact name; if found raise
`HTTPException(400, "Student already exists")`; otherwise insert a new row
with the next id and return the success envelope. -/
def add_student_try (student : PostStudent) (db : DB) :
    Except PyExn (DB × ResponseModel) :=
  if (db.students.find? (fun s => s.name == student.name)).isSome then
    Except.error (PyExn.httpException 400 "Student already exists")
  else
    Except.ok
      ({ db with
          students := db.students ++
            [{ id := db.next_student_id, name := student.name,
               class_name := student.class_name }],
          next_student_id := db.next_student_id + 1 },
       { request_method := "POST", param := postStudentDict student,
         record := "Student", data := "Successfully Added Student." })

/-- `POST /students` (src/main.py 65-88). The broad `except Exception`
converts the duplicate-name `HTTPException` into a success-shaped envelope
whose `data` is the error text; the handler never re-raises, so the route is
total. -/
def add_student (student : PostStudent) (db : DB) : DB × ResponseModel :=
  match add_student_try student db with
  | Except.ok r => r
  | Except.error e =>
      (db, { request_method := "POST", param := postStudentDict student,
             record := "Student", data := "Error occurred: " ++ pyExnStr e })

/-- The validator of attendance payloads (src/main.py 97-110). Its body is
`if x == "": is_valid = True else: is_valid = False`, but no variable `x` is
bound anywhere in the function or the module, so every call raises
`NameError` before any key of `data` is inspected. The docstring inside the
function says it should check that `student_id : int`, `date : date` and
`status : str` exist in the dictionary; the body never does. -/
def attendance_isValid (data : PyDict) : Except PyExn Bool :=
  Except.error (PyExn.nameError "x")

/-- Attribute access `new_attendance_data.student_id` on a plain `dict`
(src/main.py 119): Python raises `AttributeError` unconditionally, since a
`dict` exposes keys by subscript, not by attribute. The result type is `Int`
for the (unreachable) continuation that compares it with `StudentORM.id`. -/
def dict_attr_student_id (payload : PyDict) : Except PyExn Int :=
  Except.error (PyExn.attributeError "dict" "student_id")

/-- Method access `new_attendance_data.dict()` on a plain `dict`
(src/main.py 123, 130 and 137): `AttributeError`, a `dict` has no attribute
named `dict`. -/
def dict_method_dict (payload : PyDict) : Except PyExn PyDict :=
  Except.error (PyExn.attributeError "dict" "dict")

/-- `AttendanceORM(**fields)` followed by the INSERT of src/main.py 123-126
(unreachable in the source: `fields` comes from `payload.dict()`, which
always raises). Extracts the typed columns, defaulting `is_deleted` to
`false` as the column does. -/
def attendance_from_fields (fields : PyDict) (newId : Int) :
    Except PyExn AttendanceORM :=
  match fields.lookup "student_id", fields.lookup "date",
        fields.lookup "status" with
  | some (PyVal.int sid), some (PyVal.date d), some (PyVal.str st) =>
      Except.ok
        { id := newId, student_id := sid, date := d, status := st,
          is_deleted :=
            match fields.lookup "is_deleted" with
            | some (PyVal.bool b) => b
            | _ => false }
  | _, _, _ => Except.error (PyExn.typeError "invalid attendance fields")

/-- The `try:` block of `POST /attendance` (src/main.py 115-133), step by
step: validate (raises `NameError`, see `attendance_isValid`); on `False`
raise `HTTPException(404, "Invalid Input Paramters")`; read
`new_attendance_data.student_id` (would raise `AttributeError`); look the
student up and on absence raise `HTTPException(404, "Student not found")`;
build the row from `new_attendance_data.dict()` (would raise
`AttributeError`), insert it, and return the success envelope. -/
def add_attendance_try (new_attendance_data : PyDict) (db : DB) :
    Except PyExn (DB × ResponseModel) := do
  let valid ← attendance_isValid new_attendance_data
  if valid = false then
    throw (PyExn.httpException 404 "Invalid Input Paramters")
  let sid ← dict_attr_student_id new_attendance_data
  if (db.students.find? (fun s => s.id == sid)).isNone then
    throw (PyExn.httpException 404 "Student not found")
  let fields ← dict_method_dict new_attendance_data
  let db_attendance ← attendance_from_fields fields db.next_attendance_id
  let param ← dict_method_dict new_attendance_data
  pure
    ({ db with attendance := db.attendance ++ [db_attendance],
               next_attendance_id := db.next_attendance_id + 1 },
     { request_method := "POST", param := param, record := "Attendance",
       data := "Attendance added successfully for student_id " ++
         toString sid })

/-- `POST /attendance` (src/main.py 113-140). The broad `except Exception`
handler itself evaluates `new_attendance_data.dict()` to build the error
envelope (line 137), so the handler raises `AttributeError` in turn: the
route never returns an envelope at all — every call propagates an exception
and the store is never written. -/
def add_attendance (new_attendance_data : PyDict) (db : DB) :
    Except PyExn (DB × ResponseModel) :=
  match add_attendance_try new_attendance_data db with
  | Except.ok r => Except.ok r
  | Except.error e => do
      let param ← dict_method_dict new_attendance_data
      pure (db, { request_method := "POST", param := param,
                  record := "Attendance",
                  data := "Error occurred: " ++ pyExnStr e })

/-- Zero-pad the decimal rendering of `n` to two digits. -/
def pad2 (n : Nat) : String :=
  if n < 10 then "0" ++ toString n else toString n

/-- Zero-pad the decimal rendering of `n` to four digits. -/
def pad4 (n : Nat) : String :=
  if n < 10 then "000" ++ toString n
  else if n < 100 then "00" ++ toString n
  else if n < 1000 then "0" ++ toString n
  else toString n

/-- `a.date.strftime("%Y-%m-%d")`: the date rendered as `YYYY-MM-DD`,
zero-padded to 4-2-2 digits. -/
def strftimeYmd (d : PyDate) : String :=
  pad4 d.year ++ "-" ++ pad2 d.month ++ "-" ++ pad2 d.day

/-- Python `s.startswith(pre)`: character-wise (for UTF-8 equivalently
byte-wise) prefix test. -/
def startswith (s pre : String) : Bool :=
  pre.data.isPrefixOf s.data

/-- `GET /attendance/day_month` (src/main.py 155-167): scan the non-deleted
rows in insertion order, keep those whose rendered date starts with
`day_month`. (The route then copies each kept row field-for-field through
the `Attendance` response schema; that serialization is outside the core.) -/
def get_active_attendance (day_month : String) (db : DB) :
    List AttendanceORM :=
  let records := db.attendance.filter (fun a => a.is_deleted == false)
  records.filter (fun a => startswith (strftimeYmd a.date) day_month)

/-- `GET /attendance/day_month/deleted` (src/main.py 169-181): same scan but
over the soft-deleted rows. -/
def get_deleted_attendance (day_month : String) (db : DB) :
    List AttendanceORM :=
  let records := db.attendance.filter (fun a => a.is_deleted == true)
  records.filter (fun a => startswith (strftimeYmd a.date) day_month)

/-- `record.is_deleted = v` on the row returned by
`.filter(AttendanceORM.id == attendance_id).first()`: update the first row
with the given id, leave everything else in place. -/
def set_is_deleted_first (attendance_id : Int) (v : Bool) :
    List AttendanceORM → List AttendanceORM
  | [] => []
  | a :: rest =>
      if a.id == attendance_id then { a with is_deleted := v } :: rest
      else a :: set_is_deleted_first attendance_id v rest

/-- `DELETE /attendance/attendance_id` (src/main.py 183-190): look the row up
by id, raise `HTTPException(404, "Record not found")` if absent (this route
has no `try/except`, so the exception propagates as a genuine 404), else set
`is_deleted = True`, commit, and return the message and id. -/
def delete_attendance (attendance_id : Int) (db : DB) :
    Except PyExn (DB × String × Int) :=
  match db.attendance.find? (fun a => a.id == attendance_id) with
  | none => Except.error (PyExn.httpException 404 "Record not found")
  | some _ =>
      Except.ok
        ({ db with attendance :=
            set_is_deleted_first attendance_id true db.attendance },
         ("Attendance marked as deleted", attendance_id))

/-- `PUT /attendance/restore/attendance_id` (src/main.py 192-199): same
lookup, sets `is_deleted = False`. -/
def restore_attendance (attendance_id : Int) (db : DB) :
    Except PyExn (DB × String × Int) :=
  match db.attendance.find? (fun a => a.id == attendance_id) with
  | none => Except.error (PyExn.httpException 404 "Record not found")
  | some _ =>
      Except.ok
        ({ db with attendance :=
            set_is_deleted_first attendance_id false db.attendance },
         ("Attendance restored", attendance_id))

/-- The empty store, auto-increment keys starting at 1 as SQLite does. -/
def emptyDB : DB :=
  { students := [], attendance := [], next_student_id := 1,
    next_attendance_id := 1 }

/-- A well-formed attendance payload for student 1 on 2024-03-05. -/
def validPayload : PyDict :=
  [("student_id", PyVal.int 1), ("date", PyVal.date ⟨2024, 3, 5⟩),
   ("status", PyVal.str "Present")]

/-- An attendance payload missing the required `student_id` key. -/
def missingStudentIdPayload : PyDict :=
  [("date", PyVal.date ⟨2024, 3, 5⟩), ("status", PyVal.str "Present")]

/-- A well-formed attendance payload whose `student_id` (999) matches no
student of `studentDB`. -/
def unknownStudentPayload : PyDict :=
  [("student_id", PyVal.int 999), ("date", PyVal.date ⟨2024, 3, 5⟩),
   ("status", PyVal.str "Present")]

/-- A store holding the single student Alice with id 1. -/
def studentDB : DB :=
  { students := [{ id := 1, name := "Alice", class_name := "10A" }],
    attendance := [], next_student_id := 2, next_attendance_id := 1 }

/-- Eta for a no-op flag update: writing the value a row already holds leaves
the row unchanged. -/
theorem setFlag_eta (a : AttendanceORM) (v : Bool) (h : a.is_deleted = v) :
    { a with is_deleted := v } = a := by
  cases a
  cases h
  rfl

/-- `set_is_deleted_first` rewrites exactly the row `find?` returns. -/
theorem find?_set_is_deleted_first (i : Int) (v : Bool)
    (l : List AttendanceORM) :
    (set_is_deleted_first i v l).find? (fun r => r.id == i) =
      (l.find? (fun r => r.id == i)).map
        (fun r => { r with is_deleted := v }) := by
  induction l with
  | nil => rfl
  | cons a rest ih =>
      cases hid : (a.id == i) with
      | true =>
          simp only [set_is_deleted_first, hid, if_true]
          simp [List.find?_cons, hid]
      | false =>
          simp only [set_is_deleted_first, hid, if_false, Bool.false_eq_true]
          simp [List.find?_cons, hid, ih]

/-- Writing the flag twice is the same as writing it once. -/
theorem set_is_deleted_first_idem (i : Int) (v w : Bool)
    (l : List AttendanceORM) :
    set_is_deleted_first i v (set_is_deleted_first i w l) =
      set_is_deleted_first i v l := by
  induction l with
  | nil => rfl
  | cons a rest ih =>
      cases hid : (a.id == i) with
      | true => simp [set_is_deleted_first, hid]
      | false => simp [set_is_deleted_first, hid, ih]

/-- Writing the value the first matching row already holds is a no-op. -/
theorem set_is_deleted_first_self (i : Int) (v : Bool)
    (l : List AttendanceORM) (a : AttendanceORM)
    (h : l.find? (fun r => r.id == i) = some a) (hv : a.is_deleted = v) :
    set_is_deleted_first i v l = l := by
  induction l with
  | nil => simp at h
  | cons b rest ih =>
      cases hid : (b.id == i) with
      | true =>
          simp only [List.find?_cons, hid] at h
          obtain rfl : b = a := by injection h
          simp [set_is_deleted_first, hid, setFlag_eta b v hv]
      | false =>
          simp only [List.find?_cons, hid] at h
          simp [set_is_deleted_first, hid, ih h]

/-- Claim C1: the claim states the Validator returns `true` exactly on the
mappings holding all three required, correctly typed keys. The code does
not: already on a fully well-formed payload `attendance_isValid` raises
`NameError` (its body reads the unbound variable `x`) instead of returning
`true`, contradicting its own docstring, which asks for the three key
checks. -/
theorem attendance_isValid_raises_on_valid_payload :
    attendance_isValid validPayload = Except.error (PyExn.nameError "x") :=
  rfl

/-- Claim C2: the claim states the Validator never raises and returns `false`
on bad input. The code raises `NameError` on every input whatsoever — it
never returns a boolean at all. -/
theorem attendance_isValid_always_raises (data : PyDict) :
    attendance_isValid data = Except.error (PyExn.nameError "x") :=
  rfl

/-- Claim C3: the claim states that on a valid payload referencing an
existing student, `add_attendance` persists exactly one new record with
`is_deleted = false` and returns its id. The code instead propagates an
uncaught `AttributeError` (`new_attendance_data.dict()` evaluated inside the
`except` handler, after the validator `NameError` was caught): no envelope is
returned, no row is inserted — witness student 1 present in `studentDB` and
the well-formed `validPayload`. An `Except.error` result carries no store
state: nothing was committed. -/
theorem add_attendance_raises_on_valid_payload :
    add_attendance validPayload studentDB =
      Except.error (PyExn.attributeError "dict" "dict") :=
  rfl

/-- Claim C4: the claim states a payload missing a required key fails with
`InvalidInput` and nothing is persisted. For every store state, the code
indeed persists nothing on such a payload, but the failure is not
`InvalidInput`: the validator raises `NameError` before any key is checked,
the `except` handler then raises `AttributeError`, and the branch raising
`HTTPException(404, "Invalid Input Paramters")` is unreachable. -/
theorem add_attendance_on_missing_student_id (db : DB) :
    add_attendance missingStudentIdPayload db =
      Except.error (PyExn.attributeError "dict" "dict") :=
  rfl

/-- Claim C5: the claim states a well-formed payload with a non-existent
`student_id` fails with `NotFound` and nothing is persisted. The code indeed
persists nothing, but it raises before the student lookup is ever reached:
the validator `NameError` (then the handler `AttributeError`) pre-empts the
`HTTPException(404, "Student not found")` branch — witness payload
`student_id = 999` against `studentDB`, whose only student has id 1. -/
theorem add_attendance_on_unknown_student :
    add_attendance unknownStudentPayload studentDB =
      Except.error (PyExn.attributeError "dict" "dict") :=
  rfl

/-- Claim C6: on a store already holding a student of the given name,
`add_student` changes nothing and reports the duplicate: the in-service
`HTTPException(400, "Student already exists")` is converted by the broad
handler into the envelope whose `data` is the error text (the
`DuplicateResource` outcome), and no row is inserted — the store comes back
unchanged. -/
theorem add_student_duplicate (db : DB) (p : PostStudent)
    (h : ∃ s ∈ db.students, s.name = p.name) :
    add_student p db =
      (db, { request_method := "POST", param := postStudentDict p,
             record := "Student",
             data := "Error occurred: 400: Student already exists" }) := by
  have hfind : (db.students.find? (fun s => s.name == p.name)).isSome = true := by
    rw [List.find?_isSome]
    obtain ⟨s, hs, hn⟩ := h
    exact ⟨s, hs, by simp [hn]⟩
  simp only [add_student, add_student_try, hfind]
  rfl

/-- The body of the first `POST /students` call of the duplicate scenario. -/
def alicePost : PostStudent := { name := "Alice", class_name := "10A" }

/-- The store after adding Alice once to the empty store. -/
def aliceDB : DB := (add_student alicePost emptyDB).1

/-- Witness for C6: adding `"Alice"` a second time leaves the store
untouched and yields the duplicate outcome, and exactly one `"Alice"` row is
persisted. -/
theorem add_student_duplicate_witness :
    add_student alicePost aliceDB =
      (aliceDB,
       { request_method := "POST", param := postStudentDict alicePost,
         record := "Student",
         data := "Error occurred: 400: Student already exists" })
    ∧ aliceDB.students.countP (fun s => s.name == "Alice") = 1 :=
  ⟨add_student_duplicate aliceDB alicePost
     ⟨{ id := 1, name := "Alice", class_name := "10A" }, by decide, rfl⟩,
   by decide⟩

/-- Claim C7: the active listing returns exactly the rows with
`is_deleted = false` whose rendered `YYYY-MM-DD` date starts byte-wise with
`day_month`, and the deleted listing exactly those with `is_deleted = true`
under the same condition; both results are sublists of the table, hence in
insertion order. -/
theorem list_by_date_prefix_spec (db : DB) (day_month : String)
    (a : AttendanceORM) :
    (a ∈ get_active_attendance day_month db ↔
       a ∈ db.attendance ∧ a.is_deleted = false ∧
         startswith (strftimeYmd a.date) day_month = true) ∧
    (a ∈ get_deleted_attendance day_month db ↔
       a ∈ db.attendance ∧ a.is_deleted = true ∧
         startswith (strftimeYmd a.date) day_month = true) ∧
    (get_active_attendance day_month db).Sublist db.attendance ∧
    (get_deleted_attendance day_month db).Sublist db.attendance := by
  refine ⟨?_, ?_, ?_, ?_⟩
  · simp only [get_active_attendance, List.mem_filter, and_assoc, beq_iff_eq]
  · simp only [get_deleted_attendance, List.mem_filter, and_assoc, beq_iff_eq]
  · exact List.Sublist.trans (List.filter_sublist _) (List.filter_sublist _)
  · exact List.Sublist.trans (List.filter_sublist _) (List.filter_sublist _)

/-- An active attendance row for student 1 on 2024-03-05. -/
def rec1 : AttendanceORM :=
  { id := 1, student_id := 1, date := ⟨2024, 3, 5⟩, status := "Present",
    is_deleted := false }

/-- A store holding Alice and her single active attendance row `rec1`. -/
def attDB : DB :=
  { students := [{ id := 1, name := "Alice", class_name := "10A" }],
    attendance := [rec1], next_student_id := 2, next_attendance_id := 2 }

/-- Witness for C7: the row dated `2024-03-05` is listed under the
month query `"2024-03"`. -/
theorem list_by_date_prefix_spec_witness :
    rec1 ∈ get_active_attendance "2024-03" attDB :=
  ((list_by_date_prefix_spec attDB "2024-03" rec1).1).mpr (by decide)

/-- Claim C8: for an existing attendance id, soft delete succeeds twice in a
row leaving the row `is_deleted = true` after each call (the second call is
a state no-op), and restore succeeds twice in a row leaving the row
`is_deleted = false` after each call. -/
theorem soft_delete_restore_idempotent (db : DB) (i : Int)
    (h : (db.attendance.find? (fun r => r.id == i)).isSome = true) :
    ∃ db1 db2,
      delete_attendance i db =
        Except.ok (db1, ("Attendance marked as deleted", i)) ∧
      (db1.attendance.find? (fun r => r.id == i)).map
          (fun r => r.is_deleted) = some true ∧
      delete_attendance i db1 =
        Except.ok (db1, ("Attendance marked as deleted", i)) ∧
      restore_attendance i db =
        Except.ok (db2, ("Attendance restored", i)) ∧
      (db2.attendance.find? (fun r => r.id == i)).map
          (fun r => r.is_deleted) = some false ∧
      restore_attendance i db2 =
        Except.ok (db2, ("Attendance restored", i)) := by
  obtain ⟨a, ha⟩ := Option.isSome_iff_exists.mp h
  refine ⟨{ db with attendance := set_is_deleted_first i true db.attendance },
          { db with attendance := set_is_deleted_first i false db.attendance },
          ?_, ?_, ?_, ?_, ?_, ?_⟩
  · simp [delete_attendance, ha]
  · simp [find?_set_is_deleted_first, ha]
  · simp [delete_attendance, find?_set_is_deleted_first, ha,
          set_is_deleted_first_idem]
  · simp [restore_attendance, ha]
  · simp [find?_set_is_deleted_first, ha]
  · simp [restore_attendance, find?_set_is_deleted_first, ha,
          set_is_deleted_first_idem]

/-- Witness for C8: the delete/restore double calls on row 1 of `attDB`. -/
theorem soft_delete_restore_idempotent_witness :
    ((attDB.attendance.find? (fun r => r.id == (1 : Int))).isSome = true) ∧
    ∃ db1 db2,
      delete_attendance 1 attDB =
        Except.ok (db1, ("Attendance marked as deleted", (1 : Int))) ∧
      (db1.attendance.find? (fun r => r.id == (1 : Int))).map
          (fun r => r.is_deleted) = some true ∧
      delete_attendance 1 db1 =
        Except.ok (db1, ("Attendance marked as deleted", (1 : Int))) ∧
      restore_attendance 1 attDB =
        Except.ok (db2, ("Attendance restored", (1 : Int))) ∧
      (db2.attendance.find? (fun r => r.id == (1 : Int))).map
          (fun r => r.is_deleted) = some false ∧
      restore_attendance 1 db2 =
        Except.ok (db2, ("Attendance restored", (1 : Int))) :=
  ⟨by decide, soft_delete_restore_idempotent attDB 1 (by decide)⟩

/-- Claim C9: soft delete then restore of a row that starts out
`is_deleted = false` gives back the original store state in full — in
particular the row keeps its original `id`, `student_id`, `date` and
`status`, and is back to `is_deleted = false`. -/
theorem soft_delete_then_restore_round_trip (db : DB) (i : Int)
    (a : AttendanceORM)
    (h : db.attendance.find? (fun r => r.id == i) = some a)
    (h0 : a.is_deleted = false) :
    ∃ db1,
      delete_attendance i db =
        Except.ok (db1, ("Attendance marked as deleted", i)) ∧
      restore_attendance i db1 =
        Except.ok (db, ("Attendance restored", i)) := by
  refine ⟨{ db with attendance := set_is_deleted_first i true db.attendance },
          ?_, ?_⟩
  · simp [delete_attendance, h]
  · have hself : set_is_deleted_first i false db.attendance = db.attendance :=
      set_is_deleted_first_self i false db.attendance a h h0
    simp [restore_attendance, find?_set_is_deleted_first, h,
          set_is_deleted_first_idem, hself]

/-- Witness for C9: delete then restore of row 1 of `attDB` restores the
store exactly. -/
theorem soft_delete_then_restore_round_trip_witness :
    (attDB.attendance.find? (fun r => r.id == (1 : Int)) = some rec1 ∧
     rec1.is_deleted = false) ∧
    ∃ db1,
      delete_attendance 1 attDB =
        Except.ok (db1, ("Attendance marked as deleted", (1 : Int))) ∧
      restore_attendance 1 db1 =
        Except.ok (attDB, ("Attendance restored", (1 : Int))) :=
  ⟨⟨by decide, rfl⟩,
   soft_delete_then_restore_round_trip attDB 1 rec1 (by decide) rfl⟩

/-- Claim C10: no row is returned by both the active and the deleted listing
for the same store and query — the two filters test `is_deleted` for the two
opposite values. -/
theorem active_deleted_listings_disjoint (db : DB) (day_month : String)
    (a : AttendanceORM) (h : a ∈ get_active_attendance day_month db) :
    a ∉ get_deleted_attendance day_month db := by
  intro hd
  simp only [get_active_attendance] at h
  simp only [get_deleted_attendance] at hd
  have b1 := (List.mem_filter.mp (List.mem_filter.mp h).1).2
  have b2 := (List.mem_filter.mp (List.mem_filter.mp hd).1).2
  simp only [beq_iff_eq] at b1 b2
  rw [b1] at b2
  exact Bool.false_ne_true b2

/-- Witness for C10: row 1 of `attDB`, listed as active for `"2024-03"`, is
absent from the deleted listing. -/
theorem active_deleted_listings_disjoint_witness :
    rec1 ∈ get_active_attendance "2024-03" attDB ∧
    rec1 ∉ get_deleted_attendance "2024-03" attDB :=
  ⟨by decide, active_deleted_listings_disjoint attDB "2024-03" rec1 (by decide)⟩
